import Mathlib

/-!
Verification development for the Benedict local voice dictation tool.

The Lean definitions below are a shallow embedding of the Python sources:

* `src/text_processor.py`   — `TextProcessor.process`, `TextProcessor.process_stream`,
  the `PROMPTS` table;
* `src/session_manager.py`  — `SessionManager` (`_create_session_file`,
  `add_transcription`, `_generate_title`, `_update_file_title`, `finalize`);
* `src/document_editor.py`  — `DocumentEditor.edit` (via the one-node LangGraph
  `edit_document`), the `EDIT_PROMPTS` table;
* `src/transcriber.py`      — `Transcriber.record` / `Transcriber.start`.

The external LLM completion service (ChatOllama chains) is modelled as an
oracle function passed in explicitly: `String → Except String String` for a
synchronous call that may fail with an exception message, or
`String → List String` for the chunk stream of `chain.stream`.  File-system
effects are modelled by carrying the backing file's content in the state;
`os.rename` success is an oracle `String → String → Bool` (old path, new
path).  Wall-clock timestamps are passed in as pre-rendered strings.
-/

/-- Python `str.strip()` on the character list: drop whitespace from both ends. -/
def stripL (cs : List Char) : List Char :=
  ((cs.dropWhile Char.isWhitespace).reverse.dropWhile Char.isWhitespace).reverse

/-- Python `str.strip()` lifted to `String`. -/
def pyStrip (s : String) : String := ⟨stripL s.data⟩

/-- Python slicing `s[:n]` on strings. -/
def pyTake (n : Nat) (s : String) : String := ⟨s.data.take n⟩

/-- Characters kept by the sanitizing regex `re.sub(r'[^\w\s-]', '', s)` in
`session_manager.py`: word characters (alphanumeric or underscore),
whitespace, and hyphen. -/
def keptBySanitize (c : Char) : Bool :=
  c.isAlphanum || c = '_' || c.isWhitespace || c = '-'

/-- `re.sub(r'[^\w\s-]', '', s)`: delete every character outside
word-characters/whitespace/hyphen. -/
def sanitizeL (cs : List Char) : List Char := cs.filter keptBySanitize

/-- Sanitizer lifted to `String`. -/
def sanitizeTitle (s : String) : String := ⟨sanitizeL s.data⟩

/-- Python `str.format` style placeholder substitution, fuel-indexed so the
recursion is structural.  Replaces every occurrence of `ph` in the template
by `x`, scanning left to right (the templates in the sources contain the
placeholder exactly once). -/
def substFuel : Nat → List Char → List Char → List Char → List Char
  | 0, _, _, s => s
  | _ + 1, _, _, [] => []
  | n + 1, ph, x, c :: cs =>
      if ph.isPrefixOf (c :: cs) then
        x ++ substFuel n ph x (List.drop ph.length (c :: cs))
      else
        c :: substFuel n ph x cs

/-- Render a prompt template by substituting the value `x` for the placeholder
`ph` (models `ChatPromptTemplate.from_template(tpl)` invoked with one
variable). -/
def renderTpl (tpl ph x : String) : String :=
  ⟨substFuel tpl.data.length ph.data x.data tpl.data⟩

/-! ## `src/text_processor.py` -/

/-- The `PROMPTS` table of `text_processor.py`.  `"raw"` maps to `none`
(Python `None`); the other four modes map to their literal templates. -/
def PROMPTS : List (String × Option String) :=
  [("clean", some "You are a dictation assistant. Clean up the following speech transcription:
- Remove filler words (um, uh, like, you know, so, basically, actually)
- Fix grammar and punctuation
- Keep the original meaning and tone
- Do NOT add any extra content or explanations
- Output ONLY the cleaned text, nothing else

Transcription: {text}

Cleaned text:"),
   ("rewrite", some "You are a writing assistant. Rewrite the following text to be clearer and more professional:
- Improve clarity and flow
- Fix any grammar issues
- Maintain the core message
- Output ONLY the rewritten text, nothing else

Original: {text}

Rewritten:"),
   ("bullets", some "Convert the following text into bullet points:
- Extract key points
- Use clear, concise language
- Output ONLY the bullet points, nothing else

Text: {text}

Bullet points:"),
   ("email", some "Format the following as a professional email:
- Add appropriate greeting and closing
- Keep it concise and professional
- Output ONLY the email, nothing else

Content: {text}

Email:"),
   ("raw", none)]

/-- Python `d[k]` / `k in d` lookup for the association-list model of a dict. -/
def dictGet (tbl : List (String × Option String)) (k : String) : Option (Option String) :=
  match tbl with
  | [] => none
  | (k₀, v₀) :: rest => if k = k₀ then some v₀ else dictGet rest k

/-- `TextProcessor.process(text, mode)`.  The completion-service chain
`prompt | llm | parser` is the oracle `svc`; the second component counts how
many completion-service invocations were made. -/
def process (svc : String → String) (text mode : String) : String × Nat :=
  if pyStrip text = "" then ("", 0)
  else if mode = "raw" then (pyStrip text, 0)
  else
    match dictGet PROMPTS mode with
    | none => (pyStrip text, 0)
    | some none => (pyStrip text, 0)
    | some (some tpl) =>
        if tpl = "" then (pyStrip text, 0)
        else (pyStrip (svc (renderTpl tpl "{text}" text)), 1)

/-- `TextProcessor.process_stream(text, mode)`.  The list returned is the
sequence of chunks the generator yields; `svcChunks` is the chunk stream of
`chain.stream`. -/
def processStream (svcChunks : String → List String) (text mode : String) :
    List String × Nat :=
  if pyStrip text = "" then ([], 0)
  else if mode = "raw" then ([pyStrip text], 0)
  else
    match dictGet PROMPTS mode with
    | none => ([pyStrip text], 0)
    | some none => ([pyStrip text], 0)
    | some (some tpl) =>
        if tpl = "" then ([pyStrip text], 0)
        else (svcChunks (renderTpl tpl "{text}" text), 1)

/-! ## `src/session_manager.py`

The on-disk file content is carried in the state as a string.  The regex
`re.sub(r'^# .+$', '# ' + title, content, count=1, flags=re.MULTILINE)` used
by `_update_file_title` is modelled by splitting the content into
newline-separated lines, replacing the first line of shape `# <nonempty>`,
and joining back. -/

/-- Split a character list into its newline-separated lines (the line
structure `re.MULTILINE` works over).  Always returns at least one line. -/
def linesOf : List Char → List (List Char)
  | [] => [[]]
  | c :: cs =>
      if c = '\n' then [] :: linesOf cs
      else
        match linesOf cs with
        | [] => [[c]]
        | l :: ls => (c :: l) :: ls

/-- Join lines back with newlines (inverse of `linesOf`). -/
def unlinesOf : List (List Char) → List Char
  | [] => []
  | [l] => l
  | l :: l' :: ls => l ++ '\n' :: unlinesOf (l' :: ls)

/-- Does a line match the regex `^# .+$`: a hash, a space, then at least one
character? -/
def isHeadingL : List Char → Bool
  | '#' :: ' ' :: _ :: _ => true
  | _ => false

/-- Replace the first line matching `^# .+$` by `# <t>`; leave everything
else unchanged (models `count=1`). -/
def replaceFirstHeadingL (t : List Char) : List (List Char) → List (List Char)
  | [] => []
  | l :: ls =>
      if isHeadingL l then ('#' :: ' ' :: t) :: ls
      else l :: replaceFirstHeadingL t ls

/-- `re.sub(r'^# .+$', '# ' + newTitle, content, count=1, flags=re.MULTILINE)`. -/
def subFirstHeading (newTitle content : String) : String :=
  ⟨unlinesOf (replaceFirstHeadingL newTitle.data (linesOf content.data))⟩

/-- One entry of `SessionManager.transcriptions`:
`{"time": ..., "raw": ..., "cleaned": ...}`. -/
structure Entry where
  time : String
  raw : String
  cleaned : String
deriving Repr, DecidableEq

/-- The state of a `SessionManager` object together with its backing file.
`outputDir`, `startStamp` (strftime `%Y-%m-%d_%H-%M`) and `startDisp`
(strftime `%Y-%m-%d %H:%M`) are the constructor-time attributes; `file` is
the content of the file at `filepath`; `titleCalls` and `orgCalls` count the
completion-service invocations made by the title chain and by the
finalize-organize chain. -/
structure SessionState where
  outputDir : String
  startStamp : String
  startDisp : String
  title : String
  filepath : String
  transcriptions : List Entry
  file : String
  titleCalls : Nat
  orgCalls : Nat
deriving Repr, DecidableEq

/-- The initial header written by `_create_session_file`. -/
def sessionHeader (title startDisp : String) : String :=
  "# " ++ title ++ "\n\n**Session Started:** " ++ startDisp ++
    "\n\n---\n\n## Raw Transcription\n\n"

/-- `SessionManager.__init__` / `_create_session_file`: placeholder title
`"Untitled Session"`, provisional path `<dir>/<stamp>_session.md`, initial
header written to the file. -/
def createSession (dir startStamp startDisp : String) : SessionState :=
  { outputDir := dir
    startStamp := startStamp
    startDisp := startDisp
    title := "Untitled Session"
    filepath := dir ++ "/" ++ startStamp ++ "_session.md"
    transcriptions := []
    file := sessionHeader "Untitled Session" startDisp
    titleCalls := 0
    orgCalls := 0 }

/-- The block `add_transcription` appends to the file:
`f"**[{timestamp}]** {entry}\n\n"`. -/
def entryBlock (time entry : String) : String :=
  "**[" ++ time ++ "]** " ++ entry ++ "\n\n"

/-- The title-generation prompt template of `_generate_title`. -/
def titlePromptTpl : String :=
  "Generate a short, descriptive title (3-6 words) for a document that starts with:
\"{text}\"

Output ONLY the title, nothing else. No quotes, no punctuation at the end.

Title:"

/-- The sanitized filename component computed by `_update_file_title`:
`re.sub(r'[^\w\s-]', '', title).replace(' ', '_')[:30]`. -/
def safeTitle (title : String) : String :=
  ⟨((sanitizeL title.data).map (fun c => if c = ' ' then '_' else c)).take 30⟩

/-- `SessionManager._update_file_title`: rewrite the first heading line of the
file to the current title, then attempt to rename the file to
`<stamp>_<safeTitle>.md`; a failed rename (`renameOk` says `false`) is
swallowed and the old path kept. -/
def updateFileTitle (renameOk : String → String → Bool) (s : SessionState) :
    SessionState :=
  let content := subFirstHeading s.title s.file
  let newPath := s.outputDir ++ "/" ++ s.startStamp ++ "_" ++ safeTitle s.title ++ ".md"
  let s₁ := { s with file := content }
  if renameOk s.filepath newPath then { s₁ with filepath := newPath } else s₁

/-- `SessionManager._generate_title`: invoke the title chain on the first
~200 characters of the first entry; on success strip, sanitize and cap the
result at 50 characters, store it and run `_update_file_title`; on a
completion-service failure swallow the exception, leaving title, file and
path untouched.  Either way one title-chain invocation was made. -/
def generateTitle (titleSvc : String → Except String String)
    (renameOk : String → String → Bool) (firstText : String)
    (s : SessionState) : SessionState :=
  match titleSvc (renderTpl titlePromptTpl "{text}" (pyTake 200 firstText)) with
  | .error _ => { s with titleCalls := s.titleCalls + 1 }
  | .ok out =>
      let t := pyTake 50 (sanitizeTitle (pyStrip out))
      updateFileTitle renameOk { s with title := t, titleCalls := s.titleCalls + 1 }

/-- Python `cleaned_text or text`: `None` and the empty string are falsy and
fall back to `text`. -/
def entryText (text : String) (cleanedText : Option String) : String :=
  match cleanedText with
  | none => text
  | some c => if c = "" then text else c

/-- `SessionManager.add_transcription(text, cleaned_text)`: the stored entry
text is `cleaned_text or text`; append the entry to the list and its block to
the file; if it is the first entry, run `_generate_title` on it. -/
def addTranscription (titleSvc : String → Except String String)
    (renameOk : String → String → Bool) (time text : String)
    (cleanedText : Option String) (s : SessionState) : SessionState :=
  let entry := entryText text cleanedText
  let s₁ := { s with
    transcriptions := s.transcriptions ++ [⟨time, text, entry⟩]
    file := s.file ++ entryBlock time entry }
  if s₁.transcriptions.length = 1 then generateTitle titleSvc renameOk entry s₁
  else s₁

/-- The finalize-organize prompt template of `finalize`. -/
def organizePromptTpl : String :=
  "Organize and structure the following notes into a clear, readable document.
- Group related ideas together
- Add section headers if appropriate
- Remove redundancy
- Keep the original voice

Notes:
{text}

Organized document:"

/-- The closing footer `f\"\\n\\n---\\n\\n*Session ended: {now}*\\n\"`. -/
def sessionFooter (endDisp : String) : String :=
  "\n\n---\n\n*Session ended: " ++ endDisp ++ "*\n"

/-- `SessionManager.finalize(organize)`: no-op when there are no entries;
otherwise append the `## Organized Summary` section header, then either the
organize-chain result (stripped; on failure a diagnostic marker followed by
the raw newline-joined text) or, for `organize=False`, the newline-joined
cleaned texts verbatim, then the closing footer. -/
def finalizeSession (orgSvc : String → Except String String)
    (endDisp : String) (organize : Bool) (s : SessionState) : SessionState :=
  if s.transcriptions = [] then s
  else
    let allText := String.intercalate "\n" (s.transcriptions.map Entry.cleaned)
    let body :=
      if organize then
        match orgSvc (renderTpl organizePromptTpl "{text}" allText) with
        | .ok organized => pyStrip organized
        | .error e => "(Organization failed: " ++ e ++ ")\n\n" ++ allText
      else allText
    { s with
      file := s.file ++ "\n---\n\n## Organized Summary\n\n" ++ body ++
        sessionFooter endDisp
      orgCalls := s.orgCalls + (if organize then 1 else 0) }

/-! ## `src/document_editor.py` -/

/-- The `EDIT_PROMPTS` table of `document_editor.py`. -/
def EDIT_PROMPTS : List (String × Option String) :=
  [("organize", some "You are a document editor. Organize and structure the following raw notes into a coherent document.

Instructions:
- Group related thoughts together
- Add clear section headers where appropriate
- Remove duplicate ideas
- Keep the original voice and meaning
- Do NOT add new content, only organize what exists
- Output ONLY the organized document, no explanations

Raw Notes:
{content}

Organized Document:"),
   ("professional", some "You are a professional editor. Transform these rough notes into a polished, professional document.

Instructions:
- Improve clarity and flow
- Fix grammar and punctuation
- Use professional language
- Maintain the core message and ideas
- Structure with clear sections if needed
- Output ONLY the final document, no explanations

Raw Notes:
{content}

Professional Document:"),
   ("summarize", some "You are a document summarizer. Create a concise summary of the following notes.

Instructions:
- Extract the key points and main ideas
- Present as a clear, readable summary
- Use bullet points for main takeaways
- Keep it under 200 words
- Output ONLY the summary, no explanations

Notes:
{content}

Summary:"),
   ("action_items", some "You are a task extractor. Extract all action items and to-dos from the following notes.

Instructions:
- Find all tasks, action items, and things to do
- List each as a clear, actionable item
- Include any deadlines or assignees mentioned
- Use checkbox format: - [ ] Task
- Output ONLY the action items list, no explanations

Notes:
{content}

Action Items:")]

/-- The `edit_document` graph node of `DocumentEditor._build_graph`: for a
mode outside `EDIT_PROMPTS` the node returns the content unchanged; otherwise
it invokes the chain on the rendered template and strips the result.  The
graph wires `START → editor → END`, so `DocumentEditor.edit` returns exactly
this node's `result` field; the second component counts completion-service
invocations. -/
def editDocument (svc : String → String) (content mode : String) : String × Nat :=
  match dictGet EDIT_PROMPTS mode with
  | none => (content, 0)
  | some none => (content, 0)
  | some (some tpl) => (pyStrip (svc (renderTpl tpl "{content}" content)), 1)

/-! ## `src/transcriber.py` -/

/-- The `Transcriber` object: `model`, `device`, and the `recorder`
attribute, which is `None` until `start()` is called (the engine handle is
modelled as `Unit`). -/
structure Transcriber where
  model : String
  device : String
  recorder : Option Unit
deriving Repr, DecidableEq

/-- `Transcriber.__init__(model, device, on_live_update)`: sets
`self.recorder = None` whatever the constructor arguments are. -/
def Transcriber.init (model device : String) : Transcriber :=
  { model := model, device := device, recorder := none }

/-- `Transcriber.start()`: builds the `AudioToTextRecorder` and stores it in
`self.recorder`. -/
def Transcriber.startRec (t : Transcriber) : Transcriber :=
  { t with recorder := some () }

/-- `Transcriber.record()`: raises
`RuntimeError("Transcriber not started. Call start() first.")` when
`self.recorder` is `None`; otherwise returns `text.strip() if text else ""`
where `text` is what the engine (`engine` oracle) produced. -/
def Transcriber.record (engine : String) (t : Transcriber) : Except String String :=
  match t.recorder with
  | none => .error "Transcriber not started. Call start() first."
  | some _ => .ok (if engine = "" then "" else pyStrip engine)

/-! ## Derived definitions and concrete test fixtures -/

/-- The rendered title prompt sent to the completion service for a first
entry whose stored text is `e`. -/
def titlePromptFor (e : String) : String :=
  renderTpl titlePromptTpl "{text}" (pyTake 200 e)

/-- The new file path `_update_file_title` attempts to rename to, for a
session state `s` whose title is already updated. -/
def renameTarget (s : SessionState) : String :=
  s.outputDir ++ "/" ++ s.startStamp ++ "_" ++ safeTitle s.title ++ ".md"

/-- A whole sequence of `add_transcription` calls, folded over the state. -/
def applyAdds (sv : String → Except String String)
    (ren : String → String → Bool)
    (inputs : List (String × String × Option String)) (s : SessionState) :
    SessionState :=
  inputs.foldl (fun st p => addTranscription sv ren p.1 p.2.1 p.2.2 st) s

/-- A deterministic synchronous completion-service stub whose output carries
surrounding whitespace. -/
def c2svc : String → String := fun _ => " X "

/-- The matching chunk-stream stub: one chunk holding exactly the
synchronous result, so streaming and synchronous calls agree
(a deterministic service). -/
def c2chunks : String → List String := fun p => [c2svc p]

/-- A title-oracle stub whose completion call always fails. -/
def failTitleSvc : String → Except String String := fun _ => .error "service down"

/-- A title-oracle stub that always answers `"Greeting Note"`. -/
def okTitleSvc : String → Except String String := fun _ => .ok "Greeting Note"

/-- A file-system stub on which every rename succeeds. -/
def renameAlways : String → String → Bool := fun _ _ => true

/-- A file-system stub on which every rename fails. -/
def renameNever : String → String → Bool := fun _ _ => false

/-- Concrete trace: a fresh session, one entry added (title inference
fails, so the header keeps the placeholder). -/
def traceOne : SessionState :=
  addTranscription failTitleSvc renameAlways "10:00:05" "um hi there"
    (some "Hi there.") (createSession "sessions" "2024-01-01_10-00" "2024-01-01 10:00")

/-- Concrete trace: `traceOne` finalized with `organize=False`. -/
def traceFinal : SessionState :=
  finalizeSession failTitleSvc "2024-01-01 10:05" false traceOne

/-- Concrete trace: a second `add_transcription` performed after
`finalize` returned. -/
def traceAfter : SessionState :=
  addTranscription failTitleSvc renameAlways "10:06:00" "we need more" none traceFinal

/-- Concrete trace: two entries with cleaned texts `"a"` and `"b"`. -/
def traceTwo : SessionState :=
  addTranscription failTitleSvc renameAlways "10:01:00" "b" none
    (addTranscription failTitleSvc renameAlways "10:00:00" "a" none
      (createSession "sessions" "2024-01-01_10-00" "2024-01-01 10:00"))

/-- A completion-service stub for the document editor. -/
def c9svc : String → String := fun _ => "Y"

/-! ## Helper lemmas -/

lemma linesOf_cons (c : Char) (cs : List Char) :
    linesOf (c :: cs) =
      if c = '\n' then [] :: linesOf cs
      else
        match linesOf cs with
        | [] => [[c]]
        | l :: ls => (c :: l) :: ls := rfl

lemma linesOf_ne_nil (cs : List Char) : linesOf cs ≠ [] := by
  induction cs with
  | nil => simp [linesOf]
  | cons c cs ih =>
      rw [linesOf_cons]
      by_cases h : c = '\n'
      · simp [h]
      · rw [if_neg h]
        cases hc : linesOf cs with
        | nil => simp
        | cons l ls => simp

lemma unlinesOf_cons (a : List Char) (ls : List (List Char)) (h : ls ≠ []) :
    unlinesOf (a :: ls) = a ++ '\n' :: unlinesOf ls := by
  cases ls with
  | nil => exact absurd rfl h
  | cons l ls => rfl

lemma unlinesOf_linesOf (cs : List Char) : unlinesOf (linesOf cs) = cs := by
  induction cs with
  | nil => rfl
  | cons c cs ih =>
      by_cases h : c = '\n'
      · subst h
        have hne := linesOf_ne_nil cs
        show unlinesOf ([] :: linesOf cs) = '\n' :: cs
        rw [unlinesOf_cons _ _ hne, ih]
        rfl
      · rw [linesOf_cons, if_neg h]
        cases hc : linesOf cs with
        | nil => exact absurd hc (linesOf_ne_nil cs)
        | cons l ls =>
            rw [hc] at ih
            cases ls with
            | nil =>
                show unlinesOf [c :: l] = c :: cs
                show c :: l = c :: cs
                rw [show l = cs from ih]
            | cons l' ls' =>
                show unlinesOf ((c :: l) :: l' :: ls') = c :: cs
                rw [unlinesOf_cons (c :: l) (l' :: ls') (by simp)]
                rw [unlinesOf_cons l (l' :: ls') (by simp)] at ih
                rw [List.cons_append, ih]

lemma linesOf_append_cons (l r : List Char) (h : '\n' ∉ l) :
    linesOf (l ++ '\n' :: r) = l :: linesOf r := by
  induction l with
  | nil => simp [linesOf]
  | cons c l ih =>
      have hc : c ≠ '\n' := by
        intro hc; exact h (by simp [hc])
      have hl : '\n' ∉ l := by
        intro hl; exact h (by simp [hl])
      rw [List.cons_append, linesOf_cons, if_neg hc, ih hl]

lemma subFirstHeading_eq (t x r : String) (hx : x.data ≠ [])
    (hnl : '\n' ∉ x.data) :
    subFirstHeading t ("# " ++ x ++ "\n" ++ r) = "# " ++ t ++ "\n" ++ r := by
  apply String.ext
  have hdata : ("# " ++ x ++ "\n" ++ r).data
      = ('#' :: ' ' :: x.data) ++ '\n' :: r.data := by
    simp [String.data_append]
  have hnl2 : '\n' ∉ ('#' :: ' ' :: x.data) := by
    intro hmem
    rcases List.mem_cons.mp hmem with h1 | hmem
    · exact absurd h1 (by decide)
    rcases List.mem_cons.mp hmem with h1 | hmem
    · exact absurd h1 (by decide)
    exact hnl hmem
  have hlines : linesOf (("# " ++ x ++ "\n" ++ r).data)
      = ('#' :: ' ' :: x.data) :: linesOf r.data := by
    rw [hdata, linesOf_append_cons _ _ hnl2]
  have hhead : isHeadingL ('#' :: ' ' :: x.data) = true := by
    cases hx2 : x.data with
    | nil => exact absurd hx2 hx
    | cons a as => simp [isHeadingL, hx2]
  simp only [subFirstHeading, hlines, replaceFirstHeadingL, hhead, if_true]
  rw [unlinesOf_cons _ _ (linesOf_ne_nil r.data), unlinesOf_linesOf]
  simp [String.data_append]

lemma string_append_ne_self (a b : String) (hb : b.data ≠ []) : a ++ b ≠ a := by
  intro h
  have hd : a.data ++ b.data = a.data := by
    have := congrArg String.data h
    simpa [String.data_append] using this
  have : b.data = [] := by
    have hlen := congrArg List.length hd
    simp at hlen
    exact List.eq_nil_of_length_eq_zero hlen
  exact hb this

lemma entryBlock_data_ne_nil (time entry : String) :
    (entryBlock time entry).data ≠ [] := by
  simp [entryBlock, String.data_append]

lemma updateFileTitle_eq (ren : String → String → Bool) (s : SessionState) :
    updateFileTitle ren s =
      if ren s.filepath (renameTarget s) then
        { s with file := subFirstHeading s.title s.file,
                 filepath := renameTarget s }
      else { s with file := subFirstHeading s.title s.file } := by
  simp only [updateFileTitle, renameTarget]

lemma addTranscription_notFirst (sv : String → Except String String)
    (ren : String → String → Bool) (time text : String) (cl : Option String)
    (s : SessionState) (h : s.transcriptions ≠ []) :
    addTranscription sv ren time text cl s =
      { s with
        transcriptions := s.transcriptions ++ [⟨time, text, entryText text cl⟩]
        file := s.file ++ entryBlock time (entryText text cl) } := by
  unfold addTranscription
  have hlen : (s.transcriptions ++ [(⟨time, text, entryText text cl⟩ : Entry)]).length ≠ 1 := by
    simp only [List.length_append, List.length_singleton]
    intro hc
    exact h (List.eq_nil_of_length_eq_zero (by omega))
  simp only [hlen, if_false]

lemma addTranscription_first_err (sv : String → Except String String)
    (ren : String → String → Bool) (time text : String) (cl : Option String)
    (s : SessionState) (e : String) (h0 : s.transcriptions = [])
    (he : sv (titlePromptFor (entryText text cl)) = .error e) :
    addTranscription sv ren time text cl s =
      { s with
        transcriptions := [⟨time, text, entryText text cl⟩]
        file := s.file ++ entryBlock time (entryText text cl)
        titleCalls := s.titleCalls + 1 } := by
  have he2 : sv (renderTpl titlePromptTpl "{text}" (pyTake 200 (entryText text cl)))
      = .error e := he
  simp only [addTranscription, generateTitle, h0, List.nil_append,
    List.length_singleton, reduceIte, he2]

lemma addTranscription_first_ok (sv : String → Except String String)
    (ren : String → String → Bool) (time text : String) (cl : Option String)
    (s : SessionState) (out : String) (h0 : s.transcriptions = [])
    (hok : sv (titlePromptFor (entryText text cl)) = .ok out) :
    addTranscription sv ren time text cl s =
      updateFileTitle ren
        { s with
          transcriptions := [⟨time, text, entryText text cl⟩]
          file := s.file ++ entryBlock time (entryText text cl)
          title := pyTake 50 (sanitizeTitle (pyStrip out))
          titleCalls := s.titleCalls + 1 } := by
  have hok2 : sv (renderTpl titlePromptTpl "{text}" (pyTake 200 (entryText text cl)))
      = .ok out := hok
  simp only [addTranscription, generateTitle, h0, List.nil_append,
    List.length_singleton, reduceIte, hok2]

lemma finalize_empty (orgSvc : String → Except String String)
    (endDisp : String) (organize : Bool) (s : SessionState)
    (h : s.transcriptions = []) :
    finalizeSession orgSvc endDisp organize s = s := by
  unfold finalizeSession
  rw [if_pos h]

lemma finalize_false (orgSvc : String → Except String String)
    (endDisp : String) (s : SessionState) (h : s.transcriptions ≠ []) :
    finalizeSession orgSvc endDisp false s =
      { s with
        file := s.file ++ "\n---\n\n## Organized Summary\n\n" ++
          String.intercalate "\n" (s.transcriptions.map Entry.cleaned) ++
          sessionFooter endDisp } := by
  unfold finalizeSession
  rw [if_neg h]
  rfl

lemma finalize_file_append (orgSvc : String → Except String String)
    (endDisp : String) (organize : Bool) (s : SessionState) :
    ∃ u, (finalizeSession orgSvc endDisp organize s).file = s.file ++ u := by
  by_cases h : s.transcriptions = []
  · rw [finalize_empty orgSvc endDisp organize s h]
    exact ⟨"", (String.append_empty s.file).symm⟩
  · simp only [finalizeSession, if_neg h]
    exact ⟨_, by rw [String.append_assoc, String.append_assoc]⟩

lemma addTranscription_titleCalls (sv : String → Except String String)
    (ren : String → String → Bool) (time text : String) (cl : Option String)
    (s : SessionState) :
    (addTranscription sv ren time text cl s).titleCalls
      = s.titleCalls + (if s.transcriptions = [] then 1 else 0) ∧
    (addTranscription sv ren time text cl s).transcriptions ≠ [] ∧
    (s.transcriptions ≠ [] →
      (addTranscription sv ren time text cl s).title = s.title) := by
  by_cases h : s.transcriptions = []
  · cases hsv : sv (titlePromptFor (entryText text cl)) with
    | error e =>
        rw [addTranscription_first_err sv ren time text cl s e h hsv]
        simp [h]
    | ok out =>
        rw [addTranscription_first_ok sv ren time text cl s out h hsv,
          updateFileTitle_eq]
        split <;> simp [h]
  · rw [addTranscription_notFirst sv ren time text cl s h]
    simp [h]

lemma join_singleton (s : String) : String.join [s] = s := rfl

lemma join_nil : String.join ([] : List String) = "" := rfl

lemma finalize_transcriptions (orgSvc : String → Except String String)
    (endDisp : String) (organize : Bool) (s : SessionState) :
    (finalizeSession orgSvc endDisp organize s).transcriptions
      = s.transcriptions := by
  unfold finalizeSession
  split
  · rfl
  · rfl

lemma updateFileTitle_filepath_of_rename_false
    (ren : String → String → Bool) (s : SessionState)
    (h : ren s.filepath (renameTarget s) = false) :
    (updateFileTitle ren s).filepath = s.filepath := by
  rw [updateFileTitle_eq, if_neg (by simp [h])]

lemma subFirstHeading_block (t x r b : String) (hx : x.data ≠ [])
    (hnl : '\n' ∉ x.data) :
    subFirstHeading t (("# " ++ x ++ "\n" ++ r) ++ b)
      = "# " ++ t ++ "\n" ++ (r ++ b) := by
  rw [String.append_assoc ("# " ++ x ++ "\n") r b]
  exact subFirstHeading_eq t x (r ++ b) hx hnl

lemma applyAdds_titleCalls_of_ne (sv : String → Except String String)
    (ren : String → String → Bool)
    (inputs : List (String × String × Option String)) (s : SessionState)
    (h : s.transcriptions ≠ []) :
    (applyAdds sv ren inputs s).titleCalls = s.titleCalls ∧
    (applyAdds sv ren inputs s).transcriptions ≠ [] := by
  induction inputs generalizing s with
  | nil => exact ⟨rfl, h⟩
  | cons p ps ih =>
      have hstep := addTranscription_titleCalls sv ren p.1 p.2.1 p.2.2 s
      have hcalls : (addTranscription sv ren p.1 p.2.1 p.2.2 s).titleCalls
          = s.titleCalls := by
        rw [hstep.1, if_neg h]
        exact Nat.add_zero _
      have hrec := ih (addTranscription sv ren p.1 p.2.1 p.2.2 s) hstep.2.1
      have hfold : applyAdds sv ren (p :: ps) s
          = applyAdds sv ren ps (addTranscription sv ren p.1 p.2.1 p.2.2 s) := rfl
      constructor
      · rw [hfold, hrec.1, hcalls]
      · rw [hfold]
        exact hrec.2

/-! ## Claim theorems -/

/-- Claim C3: for every input text, if the mode equals "raw" or is absent
from the `PROMPTS` table, `process` returns the trimmed input unchanged,
`process_stream` yields exactly that trimmed input (one chunk when the trim
is non-empty, nothing otherwise, so the yielded text is always the trimmed
input), and neither makes any completion-service call. -/
theorem C3_raw_mode_bypass (svc : String → String)
    (svcChunks : String → List String) (text mode : String)
    (h : mode = "raw" ∨ dictGet PROMPTS mode = none) :
    (process svc text mode).1 = pyStrip text ∧
    (process svc text mode).2 = 0 ∧
    String.join (processStream svcChunks text mode).1 = pyStrip text ∧
    (pyStrip text ≠ "" →
      (processStream svcChunks text mode).1 = [pyStrip text]) ∧
    (processStream svcChunks text mode).2 = 0 := by
  by_cases he : pyStrip text = ""
  · simp [process, processStream, he, join_nil]
  · rcases h with h | h
    · simp [process, processStream, he, h, join_singleton]
    · by_cases hr : mode = "raw"
      · simp [process, processStream, he, hr, join_singleton]
      · simp [process, processStream, he, hr, h, join_singleton]

/-- Claim C3 witness: instantiated at mode "raw" with input `"  hi  "` and
a concrete service stub. -/
theorem C3_witness :
    (process c2svc "  hi  " "raw").1 = pyStrip "  hi  " ∧
    (process c2svc "  hi  " "raw").2 = 0 ∧
    String.join (processStream c2chunks "  hi  " "raw").1 = pyStrip "  hi  " ∧
    (pyStrip "  hi  " ≠ "" →
      (processStream c2chunks "  hi  " "raw").1 = [pyStrip "  hi  "]) ∧
    (processStream c2chunks "  hi  " "raw").2 = 0 :=
  C3_raw_mode_bypass c2svc c2chunks "  hi  " "raw" (Or.inl rfl)

/-- Claim C2 counterexample: with the deterministic service stub `c2svc`
(whose chunk stream `c2chunks` concatenates exactly to its synchronous
answer `" X "`), concatenating the chunks of `process_stream("hi", "clean")`
gives `" X "`, while `process("hi", "clean")` returns the stripped `"X"` —
the two are not equal, refuting the claim as stated. -/
theorem C2_counterexample :
    String.join (processStream c2chunks "hi" "clean").1
      ≠ (process c2svc "hi" "clean").1 := by
  decide

/-- Claim C2 (amended): assuming a deterministic completion service (chunk
concatenation equals the synchronous result) whose outputs carry no
leading/trailing whitespace, the concatenation of all chunks yielded by
`process_stream` equals the string returned by `process` for the same text
and mode.  (Without the whitespace assumption the two differ exactly by the
final `strip` that only `process` performs.) -/
theorem C2_stream_concat_eq_process (svc : String → String)
    (svcChunks : String → List String) (text mode : String)
    (hdet : ∀ p, String.join (svcChunks p) = svc p)
    (htrim : ∀ p, pyStrip (svc p) = svc p) :
    String.join (processStream svcChunks text mode).1
      = (process svc text mode).1 := by
  by_cases he : pyStrip text = ""
  · simp [process, processStream, he, join_nil]
  · by_cases hr : mode = "raw"
    · simp [process, processStream, he, hr, join_singleton]
    · cases hd : dictGet PROMPTS mode with
      | none => simp [process, processStream, he, hr, hd, join_singleton]
      | some otpl =>
          cases otpl with
          | none => simp [process, processStream, he, hr, hd, join_singleton]
          | some tpl =>
              by_cases ht : tpl = ""
              · simp [process, processStream, he, hr, hd, ht, join_singleton]
              · simp [process, processStream, he, hr, hd, ht, hdet _, htrim _]

/-- Claim C2 witness: the amended equivalence applied to a concrete
whitespace-free deterministic stub at text "hi", mode "clean". -/
theorem C2_witness :
    String.join (processStream (fun _ => ["X"]) "hi" "clean").1
      = (process (fun _ => "X") "hi" "clean").1 :=
  C2_stream_concat_eq_process (fun _ => "X") (fun _ => ["X"]) "hi" "clean"
    (fun _ => rfl) (fun _ => rfl)

/-- Claim C9 counterexample: for a mode absent from `EDIT_PROMPTS` the
`edit_document` node returns the content verbatim, NOT trimmed: with content
`"  x  "` and unknown mode `"nope"` the result keeps its surrounding
whitespace, refuting the trimmed-return part of the claim. -/
theorem C9_counterexample :
    (editDocument c9svc "  x  " "nope").1 ≠ pyStrip "  x  " := by
  decide

/-- Claim C9 (amended): for every content string and every mode absent from
the document-editor template table, `DocumentEditor.edit` returns the input
unchanged — verbatim, without trimming — and makes no completion-service
call. -/
theorem C9_edit_unknown_mode (svc : String → String) (content mode : String)
    (h : dictGet EDIT_PROMPTS mode = none) :
    editDocument svc content mode = (content, 0) := by
  unfold editDocument
  rw [h]

/-- Claim C9 witness: the amended statement applied at content `"  x  "`
and the unknown mode `"raw"` (the utterance-level bypass mode, which the
document editor's table does not contain). -/
theorem C9_witness : editDocument c9svc "  x  " "raw" = ("  x  ", 0) :=
  C9_edit_unknown_mode c9svc "  x  " "raw" (by decide)

/-- Claim C10: calling `record()` on a `Transcriber` on which `start()` has
never been called always raises
`RuntimeError("Transcriber not started. Call start() first.")`, for every
constructor argument and whatever the engine would have produced. -/
theorem C10_record_before_start (model device engine : String) :
    Transcriber.record engine (Transcriber.init model device)
      = .error "Transcriber not started. Call start() first." := rfl

set_option maxRecDepth 8192 in
/-- Claim C1 counterexample: on a concrete session with one entry,
`add_transcription` called after `finalize` is not rejected — the source
defines no `finalized` flag and raises no `InvalidState` — and it changes
the backing file's content, refuting the claim that the file is left
unchanged. -/
theorem C1_counterexample : traceAfter.file ≠ traceFinal.file := by
  decide

/-- Claim C1 (amended): the source has no `finalized` flag, so after
`finalize` on a document with at least one entry every subsequent
`add_transcription` is accepted like any other non-first entry: it appends
its entry block to the backing file, changing the file's content (no
`InvalidState` error exists in the code). -/
theorem C1_add_after_finalize_appends (sv orgSvc : String → Except String String)
    (ren : String → String → Bool) (time text endDisp : String)
    (cl : Option String) (organize : Bool) (s : SessionState)
    (h : s.transcriptions ≠ []) :
    (addTranscription sv ren time text cl
        (finalizeSession orgSvc endDisp organize s)).file
      = (finalizeSession orgSvc endDisp organize s).file
          ++ entryBlock time (entryText text cl) ∧
    (addTranscription sv ren time text cl
        (finalizeSession orgSvc endDisp organize s)).file
      ≠ (finalizeSession orgSvc endDisp organize s).file := by
  have hne : (finalizeSession orgSvc endDisp organize s).transcriptions ≠ [] := by
    rw [finalize_transcriptions]
    exact h
  rw [addTranscription_notFirst sv ren time text cl _ hne]
  exact ⟨rfl, string_append_ne_self _ _ (entryBlock_data_ne_nil _ _)⟩

/-- Claim C1 witness: the amended statement applied to the concrete
one-entry finalized trace. -/
theorem C1_witness :
    (addTranscription failTitleSvc renameAlways "10:06:00" "we need more" none
        (finalizeSession failTitleSvc "2024-01-01 10:05" false traceOne)).file
      = (finalizeSession failTitleSvc "2024-01-01 10:05" false traceOne).file
          ++ entryBlock "10:06:00" (entryText "we need more" none) ∧
    (addTranscription failTitleSvc renameAlways "10:06:00" "we need more" none
        (finalizeSession failTitleSvc "2024-01-01 10:05" false traceOne)).file
      ≠ (finalizeSession failTitleSvc "2024-01-01 10:05" false traceOne).file :=
  C1_add_after_finalize_appends failTitleSvc failTitleSvc renameAlways
    "10:06:00" "we need more" "2024-01-01 10:05" none false traceOne (by decide)

/-- Claim C4: over any sequence of `add_transcription` calls on one fresh
session document, the title-inference completion call runs exactly once —
triggered by the first appended entry — and any `add_transcription` on a
document that already has an entry makes zero additional title-inference
calls and leaves the title unchanged. -/
theorem C4_title_inference_once (sv : String → Except String String)
    (ren : String → String → Bool) (dir stamp disp : String)
    (inputs : List (String × String × Option String))
    (h : inputs ≠ []) :
    (applyAdds sv ren inputs (createSession dir stamp disp)).titleCalls = 1 ∧
    (∀ (s : SessionState) (time text : String) (cl : Option String),
      s.transcriptions ≠ [] →
      (addTranscription sv ren time text cl s).titleCalls = s.titleCalls ∧
      (addTranscription sv ren time text cl s).title = s.title) := by
  constructor
  · cases inputs with
    | nil => exact absurd rfl h
    | cons p ps =>
        have h1 := addTranscription_titleCalls sv ren p.1 p.2.1 p.2.2
          (createSession dir stamp disp)
        have h2 := applyAdds_titleCalls_of_ne sv ren ps
          (addTranscription sv ren p.1 p.2.1 p.2.2 (createSession dir stamp disp))
          h1.2.1
        have hfold : applyAdds sv ren (p :: ps) (createSession dir stamp disp)
            = applyAdds sv ren ps
              (addTranscription sv ren p.1 p.2.1 p.2.2 (createSession dir stamp disp)) :=
          rfl
        rw [hfold, h2.1, h1.1]
        rfl
  · intro s time text cl hne
    have h1 := addTranscription_titleCalls sv ren time text cl s
    refine ⟨?_, h1.2.2 hne⟩
    rw [h1.1, if_neg hne]
    exact Nat.add_zero _

/-- Claim C4 witness: two entries added to a fresh session (with a failing
title oracle, which still counts as one title-inference call) leave the
title-call counter at exactly one. -/
theorem C4_witness :
    (applyAdds failTitleSvc renameAlways
        [("10:00:00", "a", none), ("10:01:00", "b", none)]
        (createSession "sessions" "2024-01-01_10-00" "2024-01-01 10:00")).titleCalls
      = 1 :=
  (C4_title_inference_once failTitleSvc renameAlways
    "sessions" "2024-01-01_10-00" "2024-01-01 10:00"
    [("10:00:00", "a", none), ("10:01:00", "b", none)] (by decide)).1

/-- Claim C5: during the first-entry title update, (i) a completion-service
failure is swallowed: the title stays at its placeholder, no rename is
attempted (the path is unchanged) and the file mutation is the plain entry
append; (ii) a rename failure is swallowed: the document keeps its previous
provisional path; and in either degraded outcome every later
`add_transcription` still appends its block and `finalize` still appends its
summary — no error propagates. -/
theorem C5_degraded_title_paths (sv orgSvc : String → Except String String)
    (ren : String → String → Bool) (time text endDisp : String)
    (cl : Option String) (organize : Bool) (s : SessionState) (e out : String) :
    (s.transcriptions = [] →
      sv (titlePromptFor (entryText text cl)) = .error e →
      (addTranscription sv ren time text cl s).title = s.title ∧
      (addTranscription sv ren time text cl s).filepath = s.filepath ∧
      (addTranscription sv ren time text cl s).file
        = s.file ++ entryBlock time (entryText text cl)) ∧
    (s.transcriptions = [] →
      sv (titlePromptFor (entryText text cl)) = .ok out →
      ren s.filepath (s.outputDir ++ "/" ++ s.startStamp ++ "_"
          ++ safeTitle (pyTake 50 (sanitizeTitle (pyStrip out))) ++ ".md") = false →
      (addTranscription sv ren time text cl s).filepath = s.filepath) ∧
    (∀ (time2 text2 : String) (cl2 : Option String),
      (addTranscription sv ren time2 text2 cl2
          (addTranscription sv ren time text cl s)).file
        = (addTranscription sv ren time text cl s).file
            ++ entryBlock time2 (entryText text2 cl2)) ∧
    (∃ u, (finalizeSession orgSvc endDisp organize
        (addTranscription sv ren time text cl s)).file
      = (addTranscription sv ren time text cl s).file ++ u) := by
  refine ⟨?_, ?_, ?_, ?_⟩
  · intro h0 he
    rw [addTranscription_first_err sv ren time text cl s e h0 he]
    exact ⟨rfl, rfl, rfl⟩
  · intro h0 hok hren
    rw [addTranscription_first_ok sv ren time text cl s out h0 hok]
    exact updateFileTitle_filepath_of_rename_false ren _ hren
  · intro time2 text2 cl2
    have hne := (addTranscription_titleCalls sv ren time text cl s).2.1
    rw [addTranscription_notFirst sv ren time2 text2 cl2 _ hne]
  · exact finalize_file_append orgSvc endDisp organize _

/-- Claim C5 witness: both degraded paths on a concrete fresh session —
with the failing title oracle the title keeps its placeholder and the path
stays provisional; with a successful oracle but a failing rename the path
also stays provisional. -/
theorem C5_witness :
    (addTranscription failTitleSvc renameAlways "10:00:05" "um hi there"
        (some "Hi there.")
        (createSession "sessions" "2024-01-01_10-00" "2024-01-01 10:00")).title
      = (createSession "sessions" "2024-01-01_10-00" "2024-01-01 10:00").title ∧
    (addTranscription okTitleSvc renameNever "10:00:05" "um hi there"
        (some "Hi there.")
        (createSession "sessions" "2024-01-01_10-00" "2024-01-01 10:00")).filepath
      = (createSession "sessions" "2024-01-01_10-00" "2024-01-01 10:00").filepath :=
  ⟨((C5_degraded_title_paths failTitleSvc failTitleSvc renameAlways
      "10:00:05" "um hi there" "end" (some "Hi there.") false
      (createSession "sessions" "2024-01-01_10-00" "2024-01-01 10:00")
      "service down" "unused").1 rfl rfl).1,
   (C5_degraded_title_paths okTitleSvc okTitleSvc renameNever
      "10:00:05" "um hi there" "end" (some "Hi there.") false
      (createSession "sessions" "2024-01-01_10-00" "2024-01-01 10:00")
      "unused" "Greeting Note").2.1 rfl rfl rfl⟩

set_option maxRecDepth 8192 in
/-- Claim C6 counterexample: with two entries whose cleaned texts are "a"
and "b", `finalize(organize=False)` writes the newline-joined text
`"a\nb"`, not the verbatim concatenation `"ab"` the claim describes — the
resulting file differs from the claimed one. -/
theorem C6_counterexample :
    (finalizeSession failTitleSvc "2024-01-01 10:05" false traceTwo).file
      ≠ traceTwo.file ++ "\n---\n\n## Organized Summary\n\n" ++ ("a" ++ "b")
          ++ sessionFooter "2024-01-01 10:05" := by
  decide

/-- Claim C6 (amended): for every document with at least one entry,
`finalize(organize=False)` appends the closing section header, then the
entries' cleaned texts in append order joined by single newlines (not the
bare concatenation), then the closing timestamp footer, making no
completion-service call; with zero entries `finalize` writes nothing and
returns without error. -/
theorem C6_finalize_no_organize (orgSvc : String → Except String String)
    (endDisp : String) (s : SessionState) :
    (s.transcriptions ≠ [] →
      (finalizeSession orgSvc endDisp false s).file
        = s.file ++ "\n---\n\n## Organized Summary\n\n"
            ++ String.intercalate "\n" (s.transcriptions.map Entry.cleaned)
            ++ sessionFooter endDisp ∧
      (finalizeSession orgSvc endDisp false s).orgCalls = s.orgCalls) ∧
    (s.transcriptions = [] → finalizeSession orgSvc endDisp false s = s) := by
  constructor
  · intro h
    rw [finalize_false orgSvc endDisp s h]
    exact ⟨rfl, rfl⟩
  · intro h
    exact finalize_empty orgSvc endDisp false s h

/-- Claim C6 witness: the amended statement applied to the concrete
one-entry trace — the file ends with the single cleaned text "Hi there."
followed by the closing footer. -/
theorem C6_witness :
    (finalizeSession failTitleSvc "2024-01-01 10:05" false traceOne).file
      = traceOne.file ++ "\n---\n\n## Organized Summary\n\n"
          ++ String.intercalate "\n" (traceOne.transcriptions.map Entry.cleaned)
          ++ sessionFooter "2024-01-01 10:05" ∧
    (finalizeSession failTitleSvc "2024-01-01 10:05" false traceOne).orgCalls
      = traceOne.orgCalls :=
  (C6_finalize_no_organize failTitleSvc "2024-01-01 10:05" traceOne).1 (by decide)

/-- Claim C7: mutations of the session file are append-only, except the
first-entry title update, which rewrites exactly the first markdown heading
line.  Concretely: (i) `add_transcription` on a document that already has an
entry appends the entry block at the end; (ii) every `finalize` outcome
appends some suffix to the file; (iii) a first `add_transcription` whose
title inference fails is also a pure append; (iv) a first
`add_transcription` with successful title inference produces exactly the old
file with its first heading line replaced by `# <new title>` and the entry
block appended — every other line is preserved. -/
theorem C7_append_only_frame (sv orgSvc : String → Except String String)
    (ren : String → String → Bool) (time text endDisp : String)
    (cl : Option String) (organize : Bool) (s : SessionState)
    (x r e out : String) :
    (s.transcriptions ≠ [] →
      (addTranscription sv ren time text cl s).file
        = s.file ++ entryBlock time (entryText text cl)) ∧
    (∃ u, (finalizeSession orgSvc endDisp organize s).file = s.file ++ u) ∧
    (s.transcriptions = [] →
      sv (titlePromptFor (entryText text cl)) = .error e →
      (addTranscription sv ren time text cl s).file
        = s.file ++ entryBlock time (entryText text cl)) ∧
    (s.transcriptions = [] →
      sv (titlePromptFor (entryText text cl)) = .ok out →
      s.file = "# " ++ x ++ "\n" ++ r → x.data ≠ [] → '\n' ∉ x.data →
      (addTranscription sv ren time text cl s).file
        = "# " ++ pyTake 50 (sanitizeTitle (pyStrip out)) ++ "\n"
            ++ (r ++ entryBlock time (entryText text cl))) := by
  refine ⟨?_, finalize_file_append orgSvc endDisp organize s, ?_, ?_⟩
  · intro h
    rw [addTranscription_notFirst sv ren time text cl s h]
  · intro h0 he
    rw [addTranscription_first_err sv ren time text cl s e h0 he]
  · intro h0 hok hfile hx hnl
    rw [addTranscription_first_ok sv ren time text cl s out h0 hok,
      updateFileTitle_eq]
    split
    · show subFirstHeading (pyTake 50 (sanitizeTitle (pyStrip out)))
        (s.file ++ entryBlock time (entryText text cl)) = _
      rw [hfile]
      exact subFirstHeading_block _ x r _ hx hnl
    · show subFirstHeading (pyTake 50 (sanitizeTitle (pyStrip out)))
        (s.file ++ entryBlock time (entryText text cl)) = _
      rw [hfile]
      exact subFirstHeading_block _ x r _ hx hnl

/-- Claim C7 witness: the title-success rewrite applied to a concrete fresh
session — the placeholder heading line is replaced and the rest of the
header plus the appended entry block is preserved verbatim. -/
theorem C7_witness :
    (addTranscription okTitleSvc renameAlways "10:00:05" "um hi there"
        (some "Hi there.")
        (createSession "sessions" "2024-01-01_10-00" "2024-01-01 10:00")).file
      = "# " ++ pyTake 50 (sanitizeTitle (pyStrip "Greeting Note")) ++ "\n"
          ++ ("\n**Session Started:** 2024-01-01 10:00\n\n---\n\n## Raw Transcription\n\n"
            ++ entryBlock "10:00:05" (entryText "um hi there" (some "Hi there."))) :=
  (C7_append_only_frame okTitleSvc okTitleSvc renameAlways "10:00:05"
    "um hi there" "end" (some "Hi there.") false
    (createSession "sessions" "2024-01-01_10-00" "2024-01-01 10:00")
    "Untitled Session"
    "\n**Session Started:** 2024-01-01 10:00\n\n---\n\n## Raw Transcription\n\n"
    "unused" "Greeting Note").2.2.2 rfl rfl (by decide) (by decide) (by decide)

/-- Claim C8: the session file is created at
`<dir>/<YYYY-MM-DD_HH-MM>_session.md`; on a first entry whose title
inference succeeds and whose rename succeeds, the file is renamed to
`<dir>/<stamp>_<safeTitle>.md`, where `safeTitle` strips every character
outside word characters, whitespace and hyphens, replaces spaces with
underscores, and truncates to 30 characters (replacing and truncating
commute, so this equals the claim's strip-truncate-replace order, proved as
the last conjunct). -/
theorem C8_filename_convention (sv : String → Except String String)
    (ren : String → String → Bool) (dir stamp disp time text : String)
    (cl : Option String) (s : SessionState) (out : String) :
    (createSession dir stamp disp).filepath = dir ++ "/" ++ stamp ++ "_session.md" ∧
    (s.transcriptions = [] →
      sv (titlePromptFor (entryText text cl)) = .ok out →
      ren s.filepath (s.outputDir ++ "/" ++ s.startStamp ++ "_"
          ++ safeTitle (pyTake 50 (sanitizeTitle (pyStrip out))) ++ ".md") = true →
      (addTranscription sv ren time text cl s).filepath
        = s.outputDir ++ "/" ++ s.startStamp ++ "_"
            ++ safeTitle (pyTake 50 (sanitizeTitle (pyStrip out))) ++ ".md") ∧
    (∀ t : String, safeTitle t
      = ⟨((sanitizeL t.data).take 30).map (fun c => if c = ' ' then '_' else c)⟩) := by
  refine ⟨rfl, ?_, ?_⟩
  · intro h0 hok hren
    rw [addTranscription_first_ok sv ren time text cl s out h0 hok,
      updateFileTitle_eq]
    split
    · rfl
    · next hfalse => exact absurd hren hfalse
  · intro t
    unfold safeTitle
    rw [List.map_take]

/-- Claim C8 witness: the spec's scenario — session created at
`2024-01-01_10-00`, entry `("um hi there", "Hi there.")`, title stub
`"Greeting Note"` — yields the provisional path
`sessions/2024-01-01_10-00_session.md` and, after the rename, the path
`sessions/2024-01-01_10-00_Greeting_Note.md`. -/
theorem C8_witness :
    (createSession "sessions" "2024-01-01_10-00" "2024-01-01 10:00").filepath
      = "sessions/2024-01-01_10-00_session.md" ∧
    (addTranscription okTitleSvc renameAlways "10:00:05" "um hi there"
        (some "Hi there.")
        (createSession "sessions" "2024-01-01_10-00" "2024-01-01 10:00")).filepath
      = "sessions/2024-01-01_10-00_Greeting_Note.md" := by
  have h := C8_filename_convention okTitleSvc renameAlways "sessions"
    "2024-01-01_10-00" "2024-01-01 10:00" "10:00:05" "um hi there"
    (some "Hi there.")
    (createSession "sessions" "2024-01-01_10-00" "2024-01-01 10:00")
    "Greeting Note"
  refine ⟨h.1.trans (by decide), ?_⟩
  have h2 := h.2.1 rfl rfl rfl
  rw [h2]
  decide
